import Mathlib

/-!
# Shallow embedding of `yolo.py` (caltong/yolo-v3-keras)

This file embeds the detector lifecycle and per-frame pipeline of
`src/yolo.py` in Lean 4 and proves properties of the embedded
definitions: the configuration-resolution dictionary merge
(`YOLO.__init__` / `YOLO.get_defaults`), the two-path model resolution
with its consistency assertion (`YOLO.generate`), the color-palette
generation with global-RNG seeding, the letterbox preprocessing entry
of `YOLO.detect_image`, the box-clamping arithmetic of the renderer,
and the streaming video loop of `detect_video` with its FPS
accounting.

Machine floats of the source are modelled as exact rationals (`ℚ`);
Python exceptions are modelled as `Except`/sum results; the Python
object dictionary is modelled as an association list with
first-match lookup.
-/

namespace Yolo

/-! ## Configuration resolver (`YOLO._defaults`, `get_defaults`, `__init__`) -/

/-- A Python value as it occurs in the `_defaults` dictionary of `YOLO`:
strings, floats (exact rationals here), the `model_image_size` pair
(`none` components model Python `None`), and small integers. -/
inductive PyVal where
  | str (s : String)
  | rat (q : ℚ)
  | size (a b : Option Nat)
  | nat (n : Nat)
  deriving DecidableEq, Repr

/-- The class attribute `YOLO._defaults` of `src/yolo.py` lines 22-30. -/
def yoloDefaults : List (String × PyVal) :=
  [("model_path", .str "model_data/yolo.h5"),
   ("anchors_path", .str "model_data/yolo_anchors.txt"),
   ("classes_path", .str "model_data/coco_classes.txt"),
   ("score", .rat (3/10)),
   ("iou", .rat (45/100)),
   ("model_image_size", .size (some 416) (some 416)),
   ("gpu_num", .nat 1)]

/-- First-match lookup in an association list: the model of reading a key
from a Python `dict` whose more recent writes are consed at the front. -/
def dictLookup (d : List (String × PyVal)) (k : String) : Option PyVal :=
  match d with
  | [] => none
  | (k2, v) :: rest => if k2 = k then some v else dictLookup rest k

/-- `d.update(kvs)`: every key/value pair of `kvs` is written into `d`,
overwriting existing keys.  Writes are consed in reverse order so that
`dictLookup` sees the latest write first. -/
def dictUpdate (d : List (String × PyVal)) (kvs : List (String × PyVal)) :
    List (String × PyVal) :=
  kvs.reverse ++ d

/-- A single straight quote character, as it appears in the
`get_defaults` message of `src/yolo.py` line 37. -/
def squote : String := String.mk [Char.ofNat 39]

/-- The message `get_defaults` returns for an unknown attribute name. -/
def unrecognizedMsg (n : String) : String :=
  "Unrecognized attribute name " ++ squote ++ n ++ squote

/-- `YOLO.get_defaults` (`src/yolo.py` lines 32-37): returns the default
value when the name is a key of `_defaults`, and otherwise returns the
string built by `unrecognizedMsg` (it does not raise). -/
def get_defaults (n : String) : PyVal ⊕ String :=
  match dictLookup yoloDefaults n with
  | some v => Sum.inl v
  | none => Sum.inr (unrecognizedMsg n)

/-- The dictionary-merge portion of `YOLO.__init__`
(`src/yolo.py` lines 39-41): `self.__dict__.update(self._defaults)`
followed by `self.__dict__.update(kwargs)`.  It is total: no override
name is checked, every pair of `kwargs` is written. -/
def yoloInitDict (kwargs : List (String × PyVal)) : List (String × PyVal) :=
  dictUpdate (dictUpdate [] yoloDefaults) kwargs

/-- The known configuration field names (the keys of `_defaults`). -/
def knownFields : List String := yoloDefaults.map Prod.fst

/-! ## Streaming loop (`detect_video`, `src/yolo.py` lines 179-218)

A frame is abstracted to its payload identity.  The capture source is
modelled by the list of frames it can still yield: when the list is
exhausted, `vid.read()` returns `(False, None)`.  The source never
checks `return_value`, so at end-of-stream the `None` frame reaches
`Image.fromarray`, which raises `TypeError`; the exception propagates
out of `detect_video` and `yolo.close_session()` on line 218 is never
executed.  The key poll `cv2.waitKey(1) & 0xFF == ord(q)` of each
iteration is modelled by a list of booleans, one per iteration, `true`
meaning the cancellation key was pressed; it is polled after the frame
has been fully processed. -/

/-- Outcome of one `detect_video` run: how many frames were fully
processed, how many times `close_session` ran, and whether the run
ended by an uncaught exception instead of a clean exit. -/
structure StreamResult where
  processed : Nat
  releases : Nat
  crashed : Bool
  deriving DecidableEq, Repr

/-- The `while True` loop of `detect_video`.  `frames` are the reads the
capture source can still serve; `keys` the per-iteration cancellation
polls; `p` the frames processed so far. -/
def streamLoop : List Nat → List Bool → Nat → StreamResult
  | [], _, p => { processed := p, releases := 0, crashed := true }
  | _ :: fs, ks, p =>
      if ks.headD false then { processed := p + 1, releases := 1, crashed := false }
      else streamLoop fs ks.tail (p + 1)

/-- `detect_video yolo video_path`: run the streaming loop from an empty
accounting state over the frames the capture source will yield and the
cancellation polls. -/
def detect_video (frames : List Nat) (keys : List Bool) : StreamResult :=
  streamLoop frames keys 0

/-! ## FPS accounting (`detect_video`, `src/yolo.py` lines 201-209) -/

/-- One iteration of the FPS accounting in the streaming loop: the
frame time `exec` is added to the accumulator `accum`, the window frame
counter `currFps` is incremented; if the accumulator then exceeds one
second (strictly), one second is subtracted from it, the incremented
counter is emitted as the displayed FPS, and the counter is reset to
zero.  Returns (new accumulator, new counter, emitted display). -/
def fpsStep (accum : ℚ) (currFps : Nat) (exec : ℚ) : ℚ × Nat × Option Nat :=
  let accum2 := accum + exec
  let curr2 := currFps + 1
  if 1 < accum2 then (accum2 - 1, 0, some curr2)
  else (accum2, curr2, none)

/-! ## Model resolution (`YOLO.generate`, `src/yolo.py` lines 61-83)

`generate` first asserts that the (user-expanded) model path ends in
`.h5`, then tries `load_model`; on success it asserts the consistency
of the loaded artifact with the configured anchors and classes, and on
failure it falls back to constructing the topology selected by the
anchor-count heuristic and loading raw weights into it.  The outcome
of the external `load_model` call is a parameter: `some a` models a
successful load of artifact `a`, `none` a load failure of any kind
(the bare `except:` catches them all). -/

/-- What `generate` observes of a loaded Keras artifact:
`outputDepth` is `model.layers[-1].output_shape[-1]` and `numHeads`
is `len(model.output)`. -/
structure Artifact where
  outputDepth : Nat
  numHeads : Nat
  deriving DecidableEq, Repr

/-- The two network topologies of the fallback path. -/
inductive TopologyVariant where
  | reduced
  | full
  deriving DecidableEq, Repr

/-- The resolved model: either the directly loaded artifact, or a
freshly constructed topology with its anchors-per-head argument and a
flag recording that raw weights were loaded into it. -/
inductive ModelSource where
  | loaded (a : Artifact)
  | constructed (variant : TopologyVariant) (anchorsPerHead : Nat) (weightsLoaded : Bool)
  deriving DecidableEq, Repr

/-- The errors `generate` can raise: the `.h5` suffix assertion on line
63 and the model/anchor/class mismatch assertion on lines 79-81. -/
inductive GenError where
  | notH5
  | mismatch
  deriving DecidableEq, Repr

/-- Externally visible acquisition steps of `generate`, recorded in
order, to state that a failed assertion precedes any acquisition. -/
inductive GenEffect where
  | loadAttempt
  | buildTopology
  | loadRawWeights
  deriving DecidableEq, Repr

/-- The expected output channel depth of the consistency assertion:
`num_anchors / len(self.yolo_model.output) * (num_classes + 5)`,
computed in Python float arithmetic, modelled exactly in `ℚ`. -/
def expectedDepth (numAnchors numHeads numClasses : Nat) : ℚ :=
  (numAnchors : ℚ) / (numHeads : ℚ) * ((numClasses : ℚ) + 5)

/-- The `try/except/else` of `generate` (lines 69-82): on a successful
load, assert `outputDepth == expectedDepth` (an int-float comparison,
exact on values); on a failed load, pick the reduced topology with
`num_anchors // 2` anchors per head when `num_anchors == 6` and the
full topology with `num_anchors // 3` otherwise, then load raw
weights. -/
def resolveModel (loadResult : Option Artifact) (numAnchors numClasses : Nat) :
    Except GenError ModelSource × List GenEffect :=
  match loadResult with
  | some a =>
      if (a.outputDepth : ℚ) = expectedDepth numAnchors a.numHeads numClasses then
        (Except.ok (ModelSource.loaded a), [])
      else
        (Except.error GenError.mismatch, [])
  | none =>
      if numAnchors = 6 then
        (Except.ok (ModelSource.constructed TopologyVariant.reduced (numAnchors / 2) true),
          [GenEffect.buildTopology, GenEffect.loadRawWeights])
      else
        (Except.ok (ModelSource.constructed TopologyVariant.full (numAnchors / 3) true),
          [GenEffect.buildTopology, GenEffect.loadRawWeights])

/-- Python `s.endswith(suffix)`: the characters of `suffix` are a
suffix of the characters of `s`. -/
def pyEndsWith (s suffix : String) : Bool :=
  List.isSuffixOf suffix.data s.data

/-- The model-acquisition prefix of `YOLO.generate`: the `.h5` suffix
assertion on line 63 runs first, before `load_model` is attempted;
`model_path` here is the path after `os.path.expanduser`, which
rewrites only a leading `~` and in particular leaves the suffix of any
ordinary path unchanged.  The returned effect list records which
acquisition steps ran, in order. -/
def generate (model_path : String) (loadResult : Option Artifact)
    (numAnchors numClasses : Nat) : Except GenError ModelSource × List GenEffect :=
  if pyEndsWith model_path ".h5" then
    let r := resolveModel loadResult numAnchors numClasses
    (r.1, GenEffect.loadAttempt :: r.2)
  else
    (Except.error GenError.notH5, [])

/-! ## Preprocessing (`YOLO.detect_image`, `src/yolo.py` lines 110-123)

The repository function `yolo3.utils.letterbox_image` is not under
`src/`; it is modelled from the spec below.  `detect_image` either
checks the fixed `model_image_size` against the multiple-of-32
assertions and letterboxes to it (reversing the stored pair into
`(width, height)` order), or, when the sentinel `(None, None)` is
configured, letterboxes to the source size floored to multiples of
32. -/

/-- What letterboxing records about its output: the target size, the
uniform scale factor applied to the source, the scaled inner-image
size, and the centered padding offsets. -/
structure Letterboxed where
  outW : Nat
  outH : Nat
  scale : ℚ
  innerW : Nat
  innerH : Nat
  padLeft : Nat
  padTop : Nat
  deriving DecidableEq, Repr

/-- Modelled from the spec: `letterbox_image` of `yolo3/utils.py` is
repository code absent from `src/`.  Per the spec, it computes the
single uniform scale factor `min(target_w/src_w, target_h/src_h)`,
resizes the source preserving aspect ratio to the integer-truncated
scaled size, and pads the remainder centered with a neutral fill to
reach exactly the target size.  Image content is only ever scaled and
padded, never cropped. -/
def letterbox_image (iw ih w h : Nat) : Letterboxed :=
  let scale : ℚ := min ((w : ℚ) / (iw : ℚ)) ((h : ℚ) / (ih : ℚ))
  let nw : Nat := (⌊(iw : ℚ) * scale⌋).toNat
  let nh : Nat := (⌊(ih : ℚ) * scale⌋).toNat
  { outW := w, outH := h, scale := scale, innerW := nw, innerH := nh,
    padLeft := (w - nw) / 2, padTop := (h - nh) / 2 }

/-- The target dimension the sentinel path derives from a source
dimension `d`: `d - d % 32`, the nearest lower multiple of 32. -/
def sentinelTarget (d : Nat) : Nat := d - d % 32

/-- The configured `model_image_size`: a fixed pair (stored as the
source stores it, first component checked by the first assertion) or
the sentinel `(None, None)`. -/
inductive TargetSize where
  | fixed (s0 s1 : Nat)
  | sentinel
  deriving DecidableEq, Repr

/-- The preprocessing error: one of the two `Multiples of 32 required`
assertions on lines 111-112. -/
inductive PreError where
  | notMultipleOf32
  deriving DecidableEq, Repr

/-- Image-processing work observable from the preprocessing prefix of
`detect_image`: the single resize performed by letterboxing. -/
inductive PreEffect where
  | resize
  deriving DecidableEq, Repr

/-- The preprocessing prefix of `YOLO.detect_image` (lines 110-118) on a
source image of size `iw × ih`: with a fixed target size, both stored
components are asserted to be multiples of 32 before any resize; with
the sentinel, the target is the source size floored to multiples of 32
and no divisibility check runs.  The effect list records whether any
resize work happened. -/
def preprocess (sz : TargetSize) (iw ih : Nat) :
    Except PreError Letterboxed × List PreEffect :=
  match sz with
  | TargetSize.fixed s0 s1 =>
      if s0 % 32 ≠ 0 then (Except.error PreError.notMultipleOf32, [])
      else if s1 % 32 ≠ 0 then (Except.error PreError.notMultipleOf32, [])
      else (Except.ok (letterbox_image iw ih s1 s0), [PreEffect.resize])
  | TargetSize.sentinel =>
      (Except.ok (letterbox_image iw ih (iw - iw % 32) (ih - ih % 32)), [PreEffect.resize])

/-! ## Box clamping in the renderer (`YOLO.detect_image`, lines 148-152)

The raw box `(top, left, bottom, right)` comes from the network as
floats, modelled as `ℚ`.  Each edge is rounded half-up by
`np.floor(x + 0.5)` and then `top`/`left` are clamped below by `0`
while `bottom`/`right` are clamped above by the image height/width. -/

/-- `np.floor(x + 0.5).astype(int32)`: round half up to an integer. -/
def roundHalfUp (x : ℚ) : Int := ⌊x + 1/2⌋

/-- `top = max(0, np.floor(top + 0.5).astype(int32))` (line 149);
identically for `left` on line 150. -/
def clampLow (x : ℚ) : Int := max 0 (roundHalfUp x)

/-- `bottom = min(image.size[1], np.floor(bottom + 0.5).astype(int32))`
(line 151) with `dim` the image height; identically for `right` with
the image width on line 152. -/
def clampHigh (dim : Nat) (x : ℚ) : Int := min (dim : Int) (roundHalfUp x)

/-- The clamped box of one rendered detection on a `w × h` image. -/
def clampBox (w h : Nat) (top left bottom right : ℚ) : Int × Int × Int × Int :=
  (clampLow top, clampLow left, clampHigh h bottom, clampHigh w right)

/-! ## Color palette (`YOLO.generate`, `src/yolo.py` lines 87-95)

The palette is built from evenly spaced hues `x / num_classes` at full
saturation and value, converted with `colorsys.hsv_to_rgb`, scaled to
8-bit components with `int(c * 255)`, then shuffled by
`np.random.shuffle` after `np.random.seed(10101)`; finally
`np.random.seed(None)` reseeds the global generator from fresh OS
entropy.  The numpy global generator is external library code; it is
modelled by its documented interface: seeding with `k` puts it in a
deterministic state that is a function of `k` alone, every draw is a
deterministic function of the state, and `seed(None)` seeds from an
entropy value supplied by the operating system.  The state is
abstracted by a natural number and draws by a fixed deterministic
step function. -/

/-- Python `int(q)`: truncation toward zero. -/
def pyInt (q : ℚ) : Int := if q < 0 then ⌈q⌉ else ⌊q⌋

/-- `colorsys.hsv_to_rgb` (CPython standard library), modelled exactly
over `ℚ`: the sector index is `int(h*6)` reduced mod 6, and the
returned triple is assembled from `v`, `p`, `q`, `t` by sector. -/
def hsv_to_rgb (h s v : ℚ) : ℚ × ℚ × ℚ :=
  if s = 0 then (v, v, v)
  else
    let i0 : Int := pyInt (h * 6)
    let f : ℚ := h * 6 - (i0 : ℚ)
    let p : ℚ := v * (1 - s)
    let q2 : ℚ := v * (1 - s * f)
    let t : ℚ := v * (1 - s * (1 - f))
    match (i0 % 6).toNat with
    | 0 => (v, t, p)
    | 1 => (q2, v, p)
    | 2 => (p, v, t)
    | 3 => (p, q2, v)
    | 4 => (t, p, v)
    | _ => (v, p, q2)

/-- The list `hsv_tuples` of line 87: hue `x / n` at saturation and
value 1 for each class index `x`. -/
def hsvTuples (n : Nat) : List (ℚ × ℚ × ℚ) :=
  (List.range n).map (fun (x : Nat) => ((x : ℚ) / (n : ℚ), 1, 1))

/-- Lines 89-92: convert each HSV tuple to RGB and scale each component
to 8 bits with `int(c * 255)`. -/
def baseColors (n : Nat) : List (Int × Int × Int) :=
  (hsvTuples n).map (fun hsv =>
    let rgb := hsv_to_rgb hsv.1 hsv.2.1 hsv.2.2
    (pyInt (rgb.1 * 255), pyInt (rgb.2.1 * 255), pyInt (rgb.2.2 * 255)))

/-- One deterministic PRNG draw: the abstract step function of the
modelled global generator. -/
def lcgNext (st : Nat) : Nat :=
  (st * 6364136223846793005 + 1442695040888963407) % 2 ^ 64

/-- Modelled from documented numpy behavior: `np.random.seed(k)` puts
the global generator in a state that is a function of `k` alone; the
state is abstracted by the seed value that produced it. -/
def npSeedState (k : Nat) : Nat := k

/-- Fisher-Yates-style shuffle driven by the modelled generator: each
round draws an index into the remaining elements, emits that element,
and recurses on the rest.  `fuel` bounds the recursion. -/
def npShuffleAux (st : Nat) : Nat → List α → List α
  | 0, l => l
  | _ + 1, [] => []
  | fuel + 1, a :: rest =>
      let l := a :: rest
      let st2 := lcgNext st
      let j := st2 % l.length
      l.getD j a :: npShuffleAux st2 fuel (l.eraseIdx j)

/-- `np.random.shuffle` on a list, from the state `st` the preceding
`np.random.seed` established: a deterministic permutation of the
input. -/
def npShuffle (st : Nat) (l : List α) : List α :=
  npShuffleAux st l.length l

/-- The observable outcome of the palette block: the shuffled color
list bound to `self.colors`, and the global generator state left
behind after `np.random.seed(None)`. -/
structure ColorGenResult where
  colors : List (Int × Int × Int)
  rngAfter : Nat
  deriving DecidableEq, Repr

/-- Lines 87-95 of `generate` as one function: `rngBefore` is the
global generator state when the block starts (discarded by
`seed(10101)`), `entropy` the fresh OS entropy that `seed(None)` uses
at the end. -/
def generateColors (n : Nat) (rngBefore entropy : Nat) : ColorGenResult :=
  let base := baseColors n
  let st := npSeedState 10101
  let shuffled := npShuffle st base
  { colors := shuffled, rngAfter := npSeedState entropy }

/-- A color is a valid 8-bit RGB triple: every component lies in
`[0, 255]`. -/
def valid8bitb (c : Int × Int × Int) : Bool :=
  decide (0 ≤ c.1) && decide (c.1 ≤ 255) && decide (0 ≤ c.2.1) && decide (c.2.1 ≤ 255) &&
    decide (0 ≤ c.2.2) && decide (c.2.2 ≤ 255)

/-- An HSV-converted color before 8-bit scaling: every component lies
in the unit interval. -/
def inUnitCube (c : ℚ × ℚ × ℚ) : Prop :=
  0 ≤ c.1 ∧ c.1 ≤ 1 ∧ 0 ≤ c.2.1 ∧ c.2.1 ≤ 1 ∧ 0 ≤ c.2.2 ∧ c.2.2 ≤ 1

/-! ## Helper lemmas -/

/-- Looking up a key that is not among the keys of an association list
yields `none`. -/
theorem dictLookup_eq_none (d : List (String × PyVal)) (k : String)
    (h : k ∉ d.map Prod.fst) : dictLookup d k = none := by
  induction d with
  | nil => rfl
  | cons a rest ih =>
      rcases a with ⟨k2, v⟩
      simp only [List.map_cons, List.mem_cons] at h
      push_neg at h
      simp only [dictLookup]
      rw [if_neg fun hh => h.1 hh.symm]
      exact ih h.2

/-- Picking the element at a valid index and consing it onto the list
with that index erased permutes the list. -/
theorem getD_cons_eraseIdx_perm {α : Type} (l : List α) (j : Nat) (hj : j < l.length) (d : α) :
    List.Perm (l.getD j d :: l.eraseIdx j) l := by
  rw [List.getD_eq_get l d hj, List.eraseIdx_eq_take_drop_succ]
  have hdecomp : l.take j ++ l.drop j = l := List.take_append_drop j l
  have hdrop : l.drop j = l.get ⟨j, hj⟩ :: l.drop (j + 1) := List.drop_eq_get_cons hj
  have h1 : List.Perm (l.get ⟨j, hj⟩ :: (l.take j ++ l.drop (j + 1)))
      (l.take j ++ l.get ⟨j, hj⟩ :: l.drop (j + 1)) := List.perm_middle.symm
  rw [← hdrop, hdecomp] at h1
  exact h1

/-- The modelled shuffle permutes its input, whatever the generator
state. -/
theorem npShuffleAux_perm {α : Type} (fuel st : Nat) (l : List α) :
    List.Perm (npShuffleAux st fuel l) l := by
  induction fuel generalizing st l with
  | zero => exact List.Perm.refl l
  | succ f ih =>
      cases l with
      | nil => exact List.Perm.refl []
      | cons a rest =>
          simp only [npShuffleAux]
          have hj : lcgNext st % (a :: rest).length < (a :: rest).length :=
            Nat.mod_lt _ (by simp)
          exact ((ih _ _).cons _).trans (getD_cons_eraseIdx_perm _ _ hj _)

/-- At full saturation and value and a nonnegative hue,
`colorsys.hsv_to_rgb` returns components in the unit interval. -/
theorem hsv_to_rgb_unit (h : ℚ) (hh : 0 ≤ h) : inUnitCube (hsv_to_rgb h 1 1) := by
  have h6 : 0 ≤ h * 6 := by positivity
  have hpy : pyInt (h * 6) = ⌊h * 6⌋ := by
    unfold pyInt
    rw [if_neg (not_lt.mpr h6)]
  have hf0 : 0 ≤ h * 6 - (⌊h * 6⌋ : ℚ) := by
    have := Int.floor_le (h * 6); linarith
  have hf1 : h * 6 - (⌊h * 6⌋ : ℚ) < 1 := by
    have := Int.lt_floor_add_one (h * 6); linarith
  unfold hsv_to_rgb
  rw [if_neg (one_ne_zero (α := ℚ))]
  rw [hpy]
  simp only []
  split <;>
    (dsimp only [inUnitCube]
     exact ⟨by nlinarith, by nlinarith, by nlinarith, by nlinarith, by nlinarith, by nlinarith⟩)

/-- `int(x * 255)` of a unit-interval value is a valid 8-bit
component. -/
theorem pyInt_scale255 (x : ℚ) (h0 : 0 ≤ x) (h1 : x ≤ 1) :
    0 ≤ pyInt (x * 255) ∧ pyInt (x * 255) ≤ 255 := by
  have hx : 0 ≤ x * 255 := by positivity
  unfold pyInt
  rw [if_neg (not_lt.mpr hx)]
  constructor
  · exact Int.floor_nonneg.mpr hx
  · calc (⌊x * 255⌋ : Int) ≤ ⌊(255 : ℚ)⌋ := Int.floor_le_floor (by nlinarith)
      _ = 255 := by norm_num

/-- Every color of the unshuffled palette is a valid 8-bit RGB
triple. -/
theorem baseColors_valid (n : Nat) : ∀ c ∈ baseColors n, valid8bitb c = true := by
  intro c hc
  rw [baseColors, List.mem_map] at hc
  obtain ⟨hsv, hmem, rfl⟩ := hc
  rw [hsvTuples, List.mem_map] at hmem
  obtain ⟨x, hxr, rfl⟩ := hmem
  have hhue : (0 : ℚ) ≤ (x : ℚ) / (n : ℚ) := div_nonneg (Nat.cast_nonneg x) (Nat.cast_nonneg n)
  have hu := hsv_to_rgb_unit ((x : ℚ) / (n : ℚ)) hhue
  obtain ⟨u1, u2, u3, u4, u5, u6⟩ := hu
  have b1 := pyInt_scale255 _ u1 u2
  have b2 := pyInt_scale255 _ u3 u4
  have b3 := pyInt_scale255 _ u5 u6
  simp only [valid8bitb, Bool.and_eq_true, decide_eq_true_eq]
  exact ⟨⟨⟨⟨⟨b1.1, b1.2⟩, b2.1⟩, b2.2⟩, b3.1⟩, b3.2⟩

/-- The unshuffled palette has one color per class. -/
theorem baseColors_length (n : Nat) : (baseColors n).length = n := by
  rw [baseColors, List.length_map, hsvTuples, List.length_map, List.length_range]

/-! ## Claim theorems -/

/-- C1: the claim says a failed (false) read after N valid frames makes
the streaming loop exit cleanly after exactly N processed frames,
releasing the execution context exactly once, like the cancellation
exit does.  The code never tests `return_value`: at end-of-stream the
`None` frame reaches `Image.fromarray`, which raises, and
`close_session` on line 218 is skipped.  Evaluating the model: after a
source of 2 valid frames with no cancellation, exactly 2 frames are
processed but the run crashes with 0 releases, while a cancellation
exit does release exactly once. -/
theorem c1_end_of_stream_crash :
    detect_video [7, 8] [] = { processed := 2, releases := 0, crashed := true } ∧
    detect_video [7] [true] = { processed := 1, releases := 1, crashed := false } := by
  exact ⟨rfl, rfl⟩

/-- C2 counterexample: the claim says an unknown override name is
rejected or reported and never silently applied.  Constructing with
the misspelled override name given by `"scor"` succeeds and writes the
override into the configuration dictionary, although the name is not a
known configuration field. -/
theorem c2_counterexample :
    dictLookup (yoloInitDict [("scor", PyVal.rat (1/2))]) "scor" = some (PyVal.rat (1/2)) ∧
    "scor" ∉ knownFields := by
  constructor
  · rfl
  · decide

/-- C2 (amended): `__init__` silently applies every override, known or
unknown, to the configuration dictionary (the last write to a name
wins), and never rejects or reports an unknown name; only the separate
`get_defaults` classmethod reports an unknown name, by returning the
`unrecognizedMsg` string instead of a value. -/
theorem c2_overrides_silently_applied (kwargs : List (String × PyVal)) (k : String) (v : PyVal) :
    dictLookup (yoloInitDict (kwargs ++ [(k, v)])) k = some v ∧
    (k ∉ knownFields → get_defaults k = Sum.inr (unrecognizedMsg k)) := by
  constructor
  · simp [yoloInitDict, dictUpdate, dictLookup, List.reverse_append]
  · intro hk
    have : dictLookup yoloDefaults k = none := dictLookup_eq_none _ _ hk
    simp [get_defaults, this]

/-- C2 witness: the amended statement at the concrete unknown override
name given by `"scor"`. -/
theorem c2_overrides_silently_applied_witness :
    dictLookup (yoloInitDict ([] ++ [("scor", PyVal.rat (1/2))])) "scor" =
      some (PyVal.rat (1/2)) ∧
    get_defaults "scor" = Sum.inr (unrecognizedMsg "scor") :=
  ⟨(c2_overrides_silently_applied [] "scor" (PyVal.rat (1/2))).1,
   (c2_overrides_silently_applied [] "scor" (PyVal.rat (1/2))).2 (by decide)⟩

/-- C5: on the direct-load path the consistency assertion fails exactly
when the artifact output channel depth differs from
`num_anchors / num_output_heads * (num_classes + 5)` (in particular
when it is off by one), succeeds when it matches exactly, and no such
assertion runs on the construct-and-load fallback path.  The
`0 < numHeads` hypothesis keeps the `ℚ` division aligned with the
Python float division, which would raise on zero heads. -/
theorem c5_consistency_assertion (a : Artifact) (numAnchors numClasses : Nat)
    (hheads : 0 < a.numHeads) :
    ((resolveModel (some a) numAnchors numClasses).1 = Except.error GenError.mismatch ↔
      (a.outputDepth : ℚ) ≠ expectedDepth numAnchors a.numHeads numClasses) ∧
    ((resolveModel (some a) numAnchors numClasses).1 = Except.ok (ModelSource.loaded a) ↔
      (a.outputDepth : ℚ) = expectedDepth numAnchors a.numHeads numClasses) ∧
    ((a.outputDepth : ℚ) = expectedDepth numAnchors a.numHeads numClasses + 1 →
      (resolveModel (some a) numAnchors numClasses).1 = Except.error GenError.mismatch) ∧
    (∀ nA nC : Nat, (resolveModel none nA nC).1 ≠ Except.error GenError.mismatch) := by
  by_cases hc : (a.outputDepth : ℚ) = expectedDepth numAnchors a.numHeads numClasses
  · refine ⟨?_, ?_, ?_, ?_⟩
    · simp [resolveModel, hc]
    · simp [resolveModel, hc]
    · intro h1
      exfalso
      rw [hc] at h1
      linarith
    · intro nA nC
      by_cases h6 : nA = 6 <;> simp [resolveModel, h6]
  · refine ⟨?_, ?_, ?_, ?_⟩
    · simp [resolveModel, hc]
    · simp [resolveModel, hc]
    · intro _
      simp [resolveModel, hc]
    · intro nA nC
      by_cases h6 : nA = 6 <;> simp [resolveModel, h6]

/-- C5 witness: with 9 anchors, 3 output heads and 80 classes the
expected depth is 255; a depth of 255 passes and a depth of 256 (off
by one) fails the assertion. -/
theorem c5_consistency_assertion_witness :
    (0 < 3) ∧
    (resolveModel (some ⟨255, 3⟩) 9 80).1 = Except.ok (ModelSource.loaded ⟨255, 3⟩) ∧
    (resolveModel (some ⟨256, 3⟩) 9 80).1 = Except.error GenError.mismatch :=
  ⟨by decide,
   (c5_consistency_assertion ⟨255, 3⟩ 9 80 (by decide)).2.1.mpr
     (by norm_num [expectedDepth]),
   (c5_consistency_assertion ⟨256, 3⟩ 9 80 (by decide)).1.mpr
     (by norm_num [expectedDepth])⟩

/-- C6: when direct load fails, the fallback constructs the reduced
(tiny) topology with `num_anchors // 2` anchors per head exactly when
the anchor count is 6, and otherwise the full topology with
`num_anchors // 3`, and then loads raw weights into the fresh network;
the divisors 2 and 3 are distinct as found in the source. -/
theorem c6_fallback_selection (numAnchors numClasses : Nat) :
    (numAnchors = 6 →
      (resolveModel none numAnchors numClasses).1 =
        Except.ok (ModelSource.constructed TopologyVariant.reduced (numAnchors / 2) true)) ∧
    (numAnchors ≠ 6 →
      (resolveModel none numAnchors numClasses).1 =
        Except.ok (ModelSource.constructed TopologyVariant.full (numAnchors / 3) true)) ∧
    (resolveModel none numAnchors numClasses).2 =
      [GenEffect.buildTopology, GenEffect.loadRawWeights] := by
  refine ⟨fun h => by simp [resolveModel, h], fun h => by simp [resolveModel, h], ?_⟩
  by_cases h : numAnchors = 6 <;> simp [resolveModel, h]

/-- C6 witness: 6 anchors select the reduced topology with 3 anchors
per head; 9 anchors select the full topology with 3 anchors per head
(the distinct divisors 2 and 3 in action). -/
theorem c6_fallback_selection_witness :
    (resolveModel none 6 80).1 =
      Except.ok (ModelSource.constructed TopologyVariant.reduced 3 true) ∧
    (resolveModel none 9 80).1 =
      Except.ok (ModelSource.constructed TopologyVariant.full 3 true) :=
  ⟨(c6_fallback_selection 6 80).1 rfl,
   (c6_fallback_selection 9 80).2.1 (by decide)⟩

/-- C8: a fixed target size with a dimension not divisible by 32 makes
preprocessing fail with the multiple-of-32 assertion before any resize
work (the effect trace is empty); when both dimensions are divisible
by 32, the check passes and the image is letterboxed to the reversed
size pair. -/
theorem c8_multiple_of_32_gate (s0 s1 iw ih : Nat) :
    (¬ (32 ∣ s0 ∧ 32 ∣ s1) →
      preprocess (TargetSize.fixed s0 s1) iw ih = (Except.error PreError.notMultipleOf32, [])) ∧
    (32 ∣ s0 → 32 ∣ s1 →
      preprocess (TargetSize.fixed s0 s1) iw ih =
        (Except.ok (letterbox_image iw ih s1 s0), [PreEffect.resize])) := by
  constructor
  · intro hnd
    by_cases h0 : s0 % 32 = 0
    · have h1 : s1 % 32 ≠ 0 := by
        intro h1
        exact hnd ⟨Nat.dvd_iff_mod_eq_zero.mpr h0,
                   Nat.dvd_iff_mod_eq_zero.mpr h1⟩
      simp [preprocess, h0, h1]
    · simp [preprocess, h0]
  · intro h0 h1
    have h0m : s0 % 32 = 0 := Nat.dvd_iff_mod_eq_zero.mp h0
    have h1m : s1 % 32 = 0 := Nat.dvd_iff_mod_eq_zero.mp h1
    simp [preprocess, h0m, h1m]

/-- C8 witness: the default 416 × 416 size passes the gate over a
100 × 200 source, while a 100 × 416 size fails it with no resize
performed. -/
theorem c8_multiple_of_32_gate_witness :
    preprocess (TargetSize.fixed 416 416) 100 200 =
      (Except.ok (letterbox_image 100 200 416 416), [PreEffect.resize]) ∧
    preprocess (TargetSize.fixed 100 416) 50 50 =
      (Except.error PreError.notMultipleOf32, []) :=
  ⟨(c8_multiple_of_32_gate 416 416 100 200).2 (by decide) (by decide),
   (c8_multiple_of_32_gate 100 416 50 50).1 (by decide)⟩

/-- C9 counterexample: the claim says that once at least one time unit
has accumulated the FPS display is emitted and both counters are
reset.  With an accumulated frame time of 3/2 the display is emitted
but the accumulator is left at 1/2, not reset; and with exactly one
accumulated unit (which is at least one unit) nothing is emitted at
all. -/
theorem c9_counterexample :
    fpsStep 0 0 (3/2) = (1/2, 0, some 1) ∧ ((1 : ℚ)/2 ≠ 0) ∧
    fpsStep 0 0 1 = (1, 1, none) := by
  refine ⟨?_, ?_, ?_⟩ <;> norm_num [fpsStep]

/-- C9 (amended): each iteration adds the frame time to the accumulator
and increments the window frame counter; once the accumulator strictly
exceeds one time unit, the incremented frame count is emitted as the
displayed FPS, the frame counter is reset to zero, and the accumulator
is decremented by exactly one unit, keeping the excess; at one
accumulated unit or less nothing is emitted and nothing is reset. -/
theorem c9_fps_update (accum exec : ℚ) (currFps : Nat) :
    (1 < accum + exec →
      fpsStep accum currFps exec = (accum + exec - 1, 0, some (currFps + 1))) ∧
    (accum + exec ≤ 1 →
      fpsStep accum currFps exec = (accum + exec, currFps + 1, none)) := by
  constructor
  · intro h
    simp [fpsStep, h]
  · intro h
    simp [fpsStep, not_lt.mpr h]

/-- C9 witness: the amended statement evaluated at an accumulated time
of 3/2 (emit, keep the excess 1/2) and at exactly 1 (no emission). -/
theorem c9_fps_update_witness :
    ((1 : ℚ) < 0 + 3/2 ∧ fpsStep 0 0 (3/2) = (0 + 3/2 - 1, 0, some (0 + 1))) ∧
    ((0 : ℚ) + 1 ≤ 1 ∧ fpsStep 0 0 1 = (0 + 1, 0 + 1, none)) :=
  ⟨⟨by norm_num, (c9_fps_update 0 (3/2) 0).1 (by norm_num)⟩,
   ⟨by norm_num, (c9_fps_update 0 1 0).2 (by norm_num)⟩⟩

/-- C10: model resolution asserts that the configured model path ends
in `.h5` before either acquisition path runs: with any other suffix
`generate` fails with the assertion and an empty acquisition trace,
whatever the load outcome would have been; with the suffix present the
load attempt is the first acquisition step. -/
theorem c10_h5_assertion (model_path : String) (loadResult : Option Artifact)
    (nA nC : Nat) :
    (¬ pyEndsWith model_path ".h5" = true →
      generate model_path loadResult nA nC = (Except.error GenError.notH5, [])) ∧
    (pyEndsWith model_path ".h5" = true →
      (generate model_path loadResult nA nC).2.head? = some GenEffect.loadAttempt) := by
  constructor
  · intro h
    simp [generate, h]
  · intro h
    simp [generate, h]

/-- C10 witness: a weights path without the `.h5` suffix aborts with an
empty acquisition trace even though a loadable artifact exists, while
a `.h5` path reaches the load attempt. -/
theorem c10_h5_assertion_witness :
    generate "model_data/yolo.weights" (some ⟨255, 3⟩) 9 80 =
      (Except.error GenError.notH5, []) ∧
    (generate "model_data/yolo.h5" (some ⟨255, 3⟩) 9 80).2.head? =
      some GenEffect.loadAttempt :=
  ⟨(c10_h5_assertion "model_data/yolo.weights" (some ⟨255, 3⟩) 9 80).1 (by decide),
   (c10_h5_assertion "model_data/yolo.h5" (some ⟨255, 3⟩) 9 80).2 (by decide)⟩

/-- C3 counterexample: the claim says the sentinel path crops to the
nearest lower multiple of 32 with no padding and no scaling.  On a
100 × 100 source the code letterboxes to 96 × 96 with the uniform
scale factor 24/25 — the content is scaled, not cropped. -/
theorem c3_counterexample :
    (preprocess TargetSize.sentinel 100 100).1 =
      Except.ok { outW := 96, outH := 96, scale := 24/25, innerW := 96, innerH := 96,
                  padLeft := 0, padTop := 0 } ∧
    ((24 : ℚ)/25 ≠ 1) := by
  constructor
  · norm_num [preprocess, letterbox_image]
    decide
  · norm_num

/-- C3 (amended): with the sentinel target size, preprocessing
letterboxes (it does not crop) the source to the nearest lower
multiple of 32 in each dimension: the derived target dimensions are
the greatest multiples of 32 not exceeding the source dimensions, and
the letterbox scale factor equals 1 (no scaling of content) exactly
when both source dimensions are already multiples of 32. -/
theorem c3_sentinel_letterboxes (iw ih : Nat) (hw : 0 < iw) (hh : 0 < ih) :
    (preprocess TargetSize.sentinel iw ih).1 =
      Except.ok (letterbox_image iw ih (sentinelTarget iw) (sentinelTarget ih)) ∧
    (32 ∣ sentinelTarget iw ∧ sentinelTarget iw ≤ iw ∧ iw < sentinelTarget iw + 32) ∧
    (32 ∣ sentinelTarget ih ∧ sentinelTarget ih ≤ ih ∧ ih < sentinelTarget ih + 32) ∧
    ((letterbox_image iw ih (sentinelTarget iw) (sentinelTarget ih)).scale = 1 ↔
      32 ∣ iw ∧ 32 ∣ ih) := by
  have hiw : (0 : ℚ) < iw := by exact_mod_cast hw
  have hih : (0 : ℚ) < ih := by exact_mod_cast hh
  refine ⟨rfl, ⟨⟨iw / 32, by unfold sentinelTarget; omega⟩, by unfold sentinelTarget; omega,
      by unfold sentinelTarget; omega⟩,
    ⟨⟨ih / 32, by unfold sentinelTarget; omega⟩, by unfold sentinelTarget; omega,
      by unfold sentinelTarget; omega⟩, ?_⟩
  have hscale : (letterbox_image iw ih (sentinelTarget iw) (sentinelTarget ih)).scale =
      min ((sentinelTarget iw : ℚ) / iw) ((sentinelTarget ih : ℚ) / ih) := rfl
  rw [hscale]
  have hwle : sentinelTarget iw ≤ iw := by unfold sentinelTarget; omega
  have hhle : sentinelTarget ih ≤ ih := by unfold sentinelTarget; omega
  have ha : (sentinelTarget iw : ℚ) / iw ≤ 1 := by
    rw [div_le_one hiw]; exact_mod_cast hwle
  have hb : (sentinelTarget ih : ℚ) / ih ≤ 1 := by
    rw [div_le_one hih]; exact_mod_cast hhle
  constructor
  · intro h1
    have ha1 : (sentinelTarget iw : ℚ) / iw = 1 :=
      le_antisymm ha (h1 ▸ min_le_left _ _)
    have hb1 : (sentinelTarget ih : ℚ) / ih = 1 :=
      le_antisymm hb (h1 ▸ min_le_right _ _)
    rw [div_eq_one_iff_eq (ne_of_gt hiw)] at ha1
    rw [div_eq_one_iff_eq (ne_of_gt hih)] at hb1
    have ha2 : sentinelTarget iw = iw := by exact_mod_cast ha1
    have hb2 : sentinelTarget ih = ih := by exact_mod_cast hb1
    constructor
    · have : iw % 32 = 0 := by
        unfold sentinelTarget at ha2
        omega
      omega
    · have : ih % 32 = 0 := by
        unfold sentinelTarget at hb2
        omega
      omega
  · rintro ⟨h32w, h32h⟩
    have hw0 : iw % 32 = 0 := Nat.dvd_iff_mod_eq_zero.mp h32w
    have hh0 : ih % 32 = 0 := Nat.dvd_iff_mod_eq_zero.mp h32h
    have e1 : sentinelTarget iw = iw := by unfold sentinelTarget; omega
    have e2 : sentinelTarget ih = ih := by unfold sentinelTarget; omega
    rw [e1, e2, div_self (ne_of_gt hiw), div_self (ne_of_gt hih), min_self]

/-- C3 witness: the amended statement on a 100 × 100 source — the
sentinel path letterboxes to 96 × 96, and the scale factor is not 1
because 100 is not a multiple of 32. -/
theorem c3_sentinel_letterboxes_witness :
    ((0 : Nat) < 100) ∧
    (preprocess TargetSize.sentinel 100 100).1 =
      Except.ok (letterbox_image 100 100 (sentinelTarget 100) (sentinelTarget 100)) ∧
    ¬ (letterbox_image 100 100 (sentinelTarget 100) (sentinelTarget 100)).scale = 1 :=
  ⟨by decide,
   (c3_sentinel_letterboxes 100 100 (by decide) (by decide)).1,
   fun hsc =>
     absurd ((c3_sentinel_letterboxes 100 100 (by decide) (by decide)).2.2.2.mp hsc).1
       (by decide)⟩

/-- C4 counterexample: the claim says the global random state is
restored after palette generation, so later draws behave as if it had
never run.  Starting from global state 0, with the fresh entropy value
1 that `np.random.seed(None)` obtains from the operating system, the
state after generation is 1, not the prior 0: the pre-call state is
discarded, not restored. -/
theorem c4_counterexample :
    (generateColors 3 0 1).rngAfter = 1 ∧ (generateColors 3 0 1).rngAfter ≠ 0 := by
  exact ⟨rfl, by decide⟩

/-- C4 (amended): palette generation produces, for catalog size N,
exactly N colors from the evenly spaced hue sweep, each a valid 8-bit
RGB triple, shuffled under the fixed seed 10101, so two constructions
with the same N yield the identical palette whatever the surrounding
random state; but afterwards the global random state is re-seeded from
fresh OS entropy (`np.random.seed(None)`), not restored: the post-call
state is a function of the entropy alone, so subsequent draws are
independent of the palette shuffle yet do not behave as if generation
had never run. -/
theorem c4_palette_deterministic_rng_reseeded (n r1 r2 e1 e2 : Nat) :
    (generateColors n r1 e1).colors = (generateColors n r2 e2).colors ∧
    (generateColors n r1 e1).colors.length = n ∧
    ((generateColors n r1 e1).colors.all valid8bitb = true) ∧
    (generateColors n r1 e1).rngAfter = npSeedState e1 := by
  have hperm := npShuffleAux_perm (baseColors n).length (npSeedState 10101) (baseColors n)
  refine ⟨rfl, ?_, ?_, rfl⟩
  · exact hperm.length_eq.trans (baseColors_length n)
  · rw [List.all_eq_true]
    intro c hc
    exact baseColors_valid n c (hperm.mem_iff.mp hc)

/-- C7 counterexample: the claim says every clamped coordinate lies in
[0, image dimension).  On a 100 × 100 image, a raw top edge of 150 is
not clamped at all (the code only clamps top/left from below) and a
raw bottom edge of 120 is clamped to exactly 100 — both final values
lie outside [0, 100). -/
theorem c7_counterexample :
    clampBox 100 100 150 10 120 50 = (150, 10, 100, 50) ∧
    ¬ ((clampBox 100 100 150 10 120 50).1 < 100) ∧
    ¬ ((clampBox 100 100 150 10 120 50).2.2.1 < 100) := by
  refine ⟨?_, ?_, ?_⟩ <;> norm_num [clampBox, clampLow, clampHigh, roundHalfUp]

/-- C7 (amended): after round-half-up, top and left are clamped below
to 0 only (the results are nonnegative but may exceed the image
dimension), and bottom and right are clamped above to the image
dimension only (the results are at most the dimension, which they may
equal, but may be negative); a box with integer coordinates inside
[0, dimension] is left unchanged, and the example top = -5 clamps
to 0. -/
theorem c7_clamp_bounds (w h : Nat) (t l b r : ℚ) :
    0 ≤ (clampBox w h t l b r).1 ∧
    0 ≤ (clampBox w h t l b r).2.1 ∧
    (clampBox w h t l b r).2.2.1 ≤ (h : Int) ∧
    (clampBox w h t l b r).2.2.2 ≤ (w : Int) ∧
    (∀ tz lz bz rz : Int, 0 ≤ tz → 0 ≤ lz → bz ≤ (h : Int) → rz ≤ (w : Int) →
      clampBox w h (tz : ℚ) (lz : ℚ) (bz : ℚ) (rz : ℚ) = (tz, lz, bz, rz)) ∧
    clampLow (-5) = 0 := by
  have hrz : ∀ z : Int, roundHalfUp (z : ℚ) = z := by
    intro z
    rw [roundHalfUp, show ((z : ℚ) + 1/2) = (z : ℚ) + (1/2 : ℚ) by ring]
    rw [Int.floor_int_add]
    norm_num
  refine ⟨le_max_left _ _, le_max_left _ _, min_le_left _ _, min_le_left _ _, ?_, ?_⟩
  · intro tz lz bz rz h1 h2 h3 h4
    simp only [clampBox, clampLow, clampHigh, hrz]
    rw [max_eq_right h1, max_eq_right h2, min_eq_right h3, min_eq_right h4]
  · norm_num [clampLow, roundHalfUp]

/-- C7 witness: the amended statement on a 100 × 100 image — the
in-bounds box (10, 10, 50, 50) is unchanged and top = -5 clamps
to 0. -/
theorem c7_clamp_bounds_witness :
    ((0 : Int) ≤ 10 ∧ (50 : Int) ≤ 100) ∧
    clampBox 100 100 ((10 : Int) : ℚ) ((10 : Int) : ℚ) ((50 : Int) : ℚ) ((50 : Int) : ℚ) =
      ((10 : Int), (10 : Int), (50 : Int), (50 : Int)) ∧
    clampLow (-5) = 0 :=
  ⟨⟨by decide, by decide⟩,
   (c7_clamp_bounds 100 100 10 10 50 50).2.2.2.2.1 10 10 50 50
     (by decide) (by decide) (by decide) (by decide),
   (c7_clamp_bounds 100 100 10 10 50 50).2.2.2.2.2⟩

end Yolo
